import Mathlib

/-!
Verification of the dialog state machine, cart, escalation and debounce layer
of the TropicHouse chat bot (`chat_context.py`, `bot_agent.py`, `main.py`).

The Python code is shallowly embedded: each Lean definition mirrors one Python
function or method, with the external collaborators (the LLM classifier, the
LLM quantity extractor, the staff-availability HTTP query, the agent runner)
supplied as explicit oracle parameters in an `Env` record, and Python
exceptions modelled with `Except PyErr`.  Line numbers in the doc comments
refer to the repository sources.
-/

/-- A Python runtime error: `NameError` for a lookup of an unbound name,
`KeyError` for a missing dict key. -/
inductive PyErr where
  | nameError (n : String) : PyErr
  | keyError (k : String) : PyErr
deriving DecidableEq

/-- Characters treated as whitespace by Python's `str.strip` and `\s`
(the ASCII whitespace characters plus NEL and NBSP; more exotic Unicode
whitespace does not occur in the modelled texts). -/
def isPyWhite (c : Char) : Bool :=
  c == ' ' || c == '\t' || c == '\n' || c == '\r' ||
  c.toNat == 11 || c.toNat == 12 || c.toNat == 0x85 || c.toNat == 0xA0

/-- Python `str.strip()`: drop leading and trailing whitespace. -/
def pyStrip (s : String) : String :=
  ⟨((s.data.dropWhile isPyWhite).reverse.dropWhile isPyWhite).reverse⟩

/-- Python `str.lower()` on one character, for the alphabets that occur in
this code base: ASCII letters and the Russian Cyrillic block (А..Я, Ё). -/
def pyLowerChar (c : Char) : Char :=
  if 'A' ≤ c ∧ c ≤ 'Z' then Char.ofNat (c.toNat + 32)
  else if 0x410 ≤ c.toNat ∧ c.toNat ≤ 0x42F then Char.ofNat (c.toNat + 0x20)
  else if c.toNat == 0x401 then Char.ofNat 0x451
  else c

/-- Python `str.lower()`. -/
def pyLower (s : String) : String := ⟨s.data.map pyLowerChar⟩

/-- Python `sep.join(parts)`. -/
def pyJoin (sep : String) : List String → String
  | [] => ""
  | [x] => x
  | x :: y :: xs => x ++ sep ++ pyJoin sep (y :: xs)

/-- Python truthiness of an optional string (`None` and `""` are falsy). -/
def pyTruthy : Option String → Bool
  | none => false
  | some s => !(s == "")

/-- `DialogState` enum, `chat_context.py` lines 82-93. -/
inductive DialogState where
  | START
  | ASK_SIZE
  | ASK_LOCATION
  | PLANT_SEARCH
  | OUT_OF_STOCK
  | ORDERING
  | CART_MANAGEMENT
  | CART_CHECKOUT
  | UPSELL
  | COMPLETED
  | MANAGER_CALLED
deriving DecidableEq

/-- One entry of `ChatContext.messages`.  `add_message` (`chat_context.py`
lines 130-160) is only ever called with `role` and `text` by the modelled
call sites, so a message is a role together with its optional content. -/
structure Message where
  role : String
  content : Option String
deriving DecidableEq

/-- A catalog item as stored in the cart.  The Python code keeps the raw
catalog dict; cart operations read only its `"Название"` (name) key via
`.get`, which yields `None` when the key is absent, hence `Option String`.
All other keys are opaque payload. -/
structure PlantData where
  nazvanie : Option String
  otherFields : List (String × String) := []
deriving DecidableEq

/-- One cart entry, `chat_context.py` line 114:
`{"plant": plant_data, "quantity": int, "type": "order"/"preorder"}`. -/
structure CartItem where
  plant : PlantData
  quantity : Int
  otype : String
deriving DecidableEq

/-- The per-chat session, `ChatContext.__init__` (`chat_context.py` lines
105-122).  `created_at`/time are modelled as seconds (`Nat`).  `subject` is
not set in `__init__`; Python adds the attribute dynamically
(`bot_agent.py` lines 616/632/640), modelled as an `Option` that starts
`none`. -/
structure ChatContext where
  chat_id : String
  dialog_id : Option String := none
  created_at : Nat
  messages : List Message := []
  state : DialogState := DialogState.START
  desired_size : Option String := none
  desired_location : Option String := none
  selected_plants : Option (List PlantData) := none
  cart : List CartItem := []
  order_details : Option String := none
  potential_groups : Option String := none
  channel_info : Option String := none
  user_info : Option String := none
  out_of_stock_plant : Option PlantData := none
  out_of_stock_plants : Option (List PlantData) := none
  preorder_info : Option String := none
  last_search_query : Option String := none
  subject : Option String := none
deriving DecidableEq

/-- A freshly constructed `ChatContext(chat_id)` created at time `now`. -/
def freshContext (chatId : String) (now : Nat) : ChatContext :=
  { chat_id := chatId, created_at := now }

/-- `ChatContext.is_expired` (`chat_context.py` lines 125-128):
`datetime.now() > created_at + timedelta(days=days)`, in seconds. -/
def isExpired (ctx : ChatContext) (now : Nat) (days : Nat := 7) : Bool :=
  decide (ctx.created_at + days * 86400 < now)

/-- `ChatContext.add_message(role, text)` for the modelled call shape
(no tool calls), `chat_context.py` lines 130-160. -/
def addMessage (ctx : ChatContext) (role : String) (text : String) : ChatContext :=
  { ctx with messages := ctx.messages ++ [{ role := role, content := some text }] }

/-- `ChatContext.reset_out_of_stock_state`, `chat_context.py` lines 168-175. -/
def resetOutOfStockState (ctx : ChatContext) : ChatContext :=
  { ctx with out_of_stock_plant := none, out_of_stock_plants := none, preorder_info := none }

/-- `ChatContext.reset_preferences`, `chat_context.py` lines 177-180. -/
def resetPreferences (ctx : ChatContext) : ChatContext :=
  { ctx with desired_size := none, desired_location := none }

/-- `ChatContext.clear_cart`, `chat_context.py` lines 260-262. -/
def clearCart (ctx : ChatContext) : ChatContext :=
  { ctx with cart := [] }

/-- `ChatContext.add_to_cart` on the cart list, `chat_context.py` lines
225-238: the first entry whose plant's name (`"Название"`) equals the new
plant's name gets its quantity incremented; otherwise a new entry is
appended at the end. -/
def addToCart (cart : List CartItem) (plantData : PlantData) (quantity : Int)
    (orderType : String) : List CartItem :=
  match cart with
  | [] => [{ plant := plantData, quantity := quantity, otype := orderType }]
  | item :: rest =>
    if item.plant.nazvanie = plantData.nazvanie then
      { item with quantity := item.quantity + quantity } :: rest
    else
      item :: addToCart rest plantData quantity orderType

/-- `ChatContext.remove_from_cart`, `chat_context.py` lines 240-242: keep the
entries whose plant name differs from `plantName`. -/
def removeFromCart (cart : List CartItem) (plantName : String) : List CartItem :=
  cart.filter (fun item => !(item.plant.nazvanie == some plantName))

/-- `ChatContext.change_state`, `chat_context.py` lines 182-204.  All three
guards read the state as it was before the call (`self.state` is only
reassigned at the end), and the three side-effect helpers do not touch
`state`. -/
def changeState (ctx : ChatContext) (newState : DialogState) : ChatContext :=
  let c1 := if ctx.state = DialogState.OUT_OF_STOCK ∧ newState ≠ DialogState.OUT_OF_STOCK then
      resetOutOfStockState ctx else ctx
  let c2 := if newState = DialogState.COMPLETED then clearCart c1 else c1
  let c3 := if (newState = DialogState.START ∨ newState = DialogState.PLANT_SEARCH) ∧
      ¬ (ctx.state = DialogState.START ∨ ctx.state = DialogState.PLANT_SEARCH ∨
         ctx.state = DialogState.CART_MANAGEMENT) then
      resetPreferences c2 else c2
  { c3 with state := newState }

/-! ### Cart lemmas (claim C2) -/

/-- If no entry of the cart matches the plant's name, `add_to_cart` appends a
fresh entry at the end. -/
theorem addToCart_absent (cart : List CartItem) (p : PlantData) (q : Int) (t : String)
    (h : ∀ it ∈ cart, it.plant.nazvanie ≠ p.nazvanie) :
    addToCart cart p q t = cart ++ [{ plant := p, quantity := q, otype := t }] := by
  induction cart with
  | nil => rfl
  | cons it rest ih =>
    have h1 : it.plant.nazvanie ≠ p.nazvanie := h it (by simp)
    simp only [addToCart, h1, if_false, List.cons_append]
    exact congrArg (List.cons it) (ih (fun x hx => h x (by simp [hx])))

/-- A second `add_to_cart` of the same plant into a cart that ends with that
plant's (unique) entry merges into it, summing the quantities. -/
theorem addToCart_merge_tail (cart : List CartItem) (p : PlantData) (q1 q2 : Int)
    (t1 t2 : String) (h : ∀ it ∈ cart, it.plant.nazvanie ≠ p.nazvanie) :
    addToCart (cart ++ [{ plant := p, quantity := q1, otype := t1 }]) p q2 t2
      = cart ++ [{ plant := p, quantity := q1 + q2, otype := t1 }] := by
  induction cart with
  | nil => simp [addToCart]
  | cons it rest ih =>
    have h1 : it.plant.nazvanie ≠ p.nazvanie := h it (by simp)
    simp only [List.cons_append, addToCart, h1, if_false]
    exact congrArg (List.cons it) (ih (fun x hx => h x (by simp [hx])))

/-- If some entry of the cart already matches the plant's name, `add_to_cart`
adds no row (it merges into the first matching entry). -/
theorem addToCart_present (cart : List CartItem) (p : PlantData) (q : Int) (t : String)
    (h : ∃ it ∈ cart, it.plant.nazvanie = p.nazvanie) :
    (addToCart cart p q t).length = cart.length := by
  induction cart with
  | nil => simp at h
  | cons it rest ih =>
    by_cases h1 : it.plant.nazvanie = p.nazvanie
    · simp [addToCart, h1]
    · have hr : ∃ x ∈ rest, x.plant.nazvanie = p.nazvanie := by
        rcases h with ⟨x, hx, hxn⟩
        rcases List.mem_cons.mp hx with rfl | hm
        · exact absurd hxn h1
        · exact ⟨x, hm, hxn⟩
      simp [addToCart, h1, ih hr]

/-- C2 (amended): when the cart holds no entry matching the item's name,
`add(item, q1)` appends one fresh row and a following `add(item, q2)` merges
into it, so the cart then holds exactly one row for that name, with quantity
`q1 + q2` and the first add's order type, and exactly one row was added in
total; when an entry with the name is already present, `add` changes no row
count (it merges instead of appending a duplicate). -/
theorem cart_add_merges_by_name (cart : List CartItem) (p : PlantData) (q1 q2 : Int)
    (t1 t2 : String) :
    ((∀ it ∈ cart, it.plant.nazvanie ≠ p.nazvanie) →
        addToCart cart p q1 t1 = cart ++ [{ plant := p, quantity := q1, otype := t1 }]
        ∧ (addToCart (addToCart cart p q1 t1) p q2 t2).filter
            (fun it => it.plant.nazvanie == p.nazvanie)
            = [{ plant := p, quantity := q1 + q2, otype := t1 }]
        ∧ (addToCart (addToCart cart p q1 t1) p q2 t2).length = cart.length + 1)
    ∧ ((∃ it ∈ cart, it.plant.nazvanie = p.nazvanie) →
        (addToCart cart p q1 t1).length = cart.length) := by
  constructor
  · intro h
    have ha := addToCart_absent cart p q1 t1 h
    have hm := addToCart_merge_tail cart p q1 q2 t1 t2 h
    refine ⟨ha, ?_, ?_⟩
    · rw [ha, hm, List.filter_append]
      have hnil : cart.filter (fun it => it.plant.nazvanie == p.nazvanie) = [] := by
        rw [List.filter_eq_nil_iff]
        intro a ha'
        simpa using h a ha'
      rw [hnil]
      simp
    · rw [ha, hm]; simp
  · intro h; exact addToCart_present cart p q1 t1 h

/-- Item used in concrete cart computations. -/
def ficus : PlantData := { nazvanie := some "Фикус" }

/-- C2 counterexample: quantified over *every* cart the claim fails — starting
from a cart already holding the item with quantity 5, `add(item, 1)` twice
yields a single row of quantity 7, not `q1 + q2 = 2`. -/
theorem cart_add_sum_fails_on_preloaded_cart :
    addToCart (addToCart [{ plant := ficus, quantity := 5, otype := "order" }] ficus 1 "order")
        ficus 1 "order"
      = [{ plant := ficus, quantity := 7, otype := "order" }]
    ∧ ¬ ((7 : Int) = 1 + 1) := by
  refine ⟨by decide, by decide⟩

/-- C2 witness: the amended theorem applied to the empty cart. -/
theorem cart_add_merges_by_name_witness :
    addToCart [] ficus 2 "order" = [{ plant := ficus, quantity := 2, otype := "order" }]
    ∧ (addToCart (addToCart [] ficus 2 "order") ficus 3 "preorder").filter
        (fun it => it.plant.nazvanie == ficus.nazvanie)
        = [{ plant := ficus, quantity := 2 + 3, otype := "order" }] := by
  have h := (cart_add_merges_by_name [] ficus 2 3 "order" "preorder").1 (by simp)
  exact ⟨h.1, h.2.1⟩

/-! ### State-transition lemmas (claims C3, C4) -/

/-- The state after `change_state` is the requested new state. -/
theorem changeState_state (ctx : ChatContext) (ns : DialogState) :
    (changeState ctx ns).state = ns := by
  simp only [changeState]

/-- The cart after `change_state` is empty exactly when entering `COMPLETED`,
otherwise untouched. -/
theorem changeState_cart (ctx : ChatContext) (ns : DialogState) :
    (changeState ctx ns).cart = if ns = DialogState.COMPLETED then [] else ctx.cart := by
  simp only [changeState]; split_ifs <;> rfl

/-- `desired_size` after `change_state`: cleared exactly on entering
`START`/`PLANT_SEARCH` from outside `{START, PLANT_SEARCH, CART_MANAGEMENT}`. -/
theorem changeState_desired_size (ctx : ChatContext) (ns : DialogState) :
    (changeState ctx ns).desired_size =
      if (ns = DialogState.START ∨ ns = DialogState.PLANT_SEARCH) ∧
         ¬ (ctx.state = DialogState.START ∨ ctx.state = DialogState.PLANT_SEARCH ∨
            ctx.state = DialogState.CART_MANAGEMENT)
      then none else ctx.desired_size := by
  simp only [changeState]; split_ifs <;> rfl

/-- `desired_location` after `change_state`, as for `desired_size`. -/
theorem changeState_desired_location (ctx : ChatContext) (ns : DialogState) :
    (changeState ctx ns).desired_location =
      if (ns = DialogState.START ∨ ns = DialogState.PLANT_SEARCH) ∧
         ¬ (ctx.state = DialogState.START ∨ ctx.state = DialogState.PLANT_SEARCH ∨
            ctx.state = DialogState.CART_MANAGEMENT)
      then none else ctx.desired_location := by
  simp only [changeState]; split_ifs <;> rfl

/-- C3: every transition whose target is `COMPLETED` leaves the cart empty,
whatever the session and prior cart contents. -/
theorem enter_completed_clears_cart (ctx : ChatContext) :
    (changeState ctx DialogState.COMPLETED).cart = [] := by
  rw [changeState_cart]; simp

/-- C4: a transition into `START` or `PLANT_SEARCH` clears `desired_size` and
`desired_location` iff the previous state is outside
`{START, PLANT_SEARCH, CART_MANAGEMENT}`, and never modifies the cart. -/
theorem search_transition_clears_prefs_keeps_cart (ctx : ChatContext) (ns : DialogState)
    (h : ns = DialogState.START ∨ ns = DialogState.PLANT_SEARCH) :
    ((changeState ctx ns).desired_size =
      if ctx.state = DialogState.START ∨ ctx.state = DialogState.PLANT_SEARCH ∨
         ctx.state = DialogState.CART_MANAGEMENT then ctx.desired_size else none)
    ∧ ((changeState ctx ns).desired_location =
      if ctx.state = DialogState.START ∨ ctx.state = DialogState.PLANT_SEARCH ∨
         ctx.state = DialogState.CART_MANAGEMENT then ctx.desired_location else none)
    ∧ (changeState ctx ns).cart = ctx.cart := by
  have hns : ¬ ns = DialogState.COMPLETED := by rcases h with rfl | rfl <;> simp
  refine ⟨?_, ?_, ?_⟩
  · rw [changeState_desired_size]
    by_cases hp : ctx.state = DialogState.START ∨ ctx.state = DialogState.PLANT_SEARCH ∨
        ctx.state = DialogState.CART_MANAGEMENT <;> simp [h, hp]
  · rw [changeState_desired_location]
    by_cases hp : ctx.state = DialogState.START ∨ ctx.state = DialogState.PLANT_SEARCH ∨
        ctx.state = DialogState.CART_MANAGEMENT <;> simp [h, hp]
  · rw [changeState_cart, if_neg hns]

/-- Session used in the C4 witness: mid-order, with stated preferences and a
non-empty cart. -/
def ctxC4 : ChatContext :=
  { freshContext "w4" 0 with
    state := DialogState.ORDERING,
    desired_size := some "floor",
    desired_location := some "home",
    cart := [{ plant := ficus, quantity := 1, otype := "order" }] }

/-- C4 witness: from `ORDERING`, entering `START` clears both preferences and
keeps the cart. -/
theorem search_transition_witness :
    (changeState ctxC4 DialogState.START).desired_size = none
    ∧ (changeState ctxC4 DialogState.START).desired_location = none
    ∧ (changeState ctxC4 DialogState.START).cart
        = [{ plant := ficus, quantity := 1, otype := "order" }] := by
  have h := search_transition_clears_prefs_keeps_cart ctxC4 DialogState.START (Or.inl rfl)
  refine ⟨?_, ?_, ?_⟩
  · rw [h.1]; rfl
  · rw [h.2.1]; rfl
  · rw [h.2.2]; rfl

/-! ### Intent classification (`bot_agent.py`, claim C10) -/

/-- The `CATEGORY_REPLIES` dict, `bot_agent.py` lines 15-24, in insertion
order.  The `"delivery"` entry is commented out in the source and the
`"pot_request"` category was never added, so neither is a key. -/
def CATEGORY_REPLIES : List (String × String) := [
  ("live_photo", "Сейчас я спрошу у коллеги, чтобы он сделал для вас свеженькое фото растения 📸 Немного подождите, хорошо?"),
  ("multiple_plants", "Для вашего большого заказа я уже зову нашего менеджера 🤗 Пожалуйста, подождите немного!"),
  ("order_question", "Сейчас уточню детали вашего заказа и скоро вернусь с ответом 📦"),
  ("call_request", "Понял, сейчас попрошу менеджера связаться с вами по телефону 📞"),
  ("reclamation", "Я передам ваш вопрос нашему менеджеру по рекламациям 🙏 Подождите, пожалуйста."),
  ("ask_human", "Конечно, я позову менеджера, который поможет лично 🤝 Подождите чуть-чуть!"),
  ("office_plant", "Зову нашего эксперта по озеленению офисов 🌿 Он скоро свяжется с вами.")]

/-- The seven keys of `CATEGORY_REPLIES`. -/
def CATEGORY_KEYS : List String := CATEGORY_REPLIES.map Prod.fst

/-- The `DETAILS_PREFIX` dict of notification headers, `bot_agent.py` lines
27-36 (again without the commented-out `"delivery"` entry). -/
def DETAILS_HEADERS : List (String × String) := [
  ("live_photo", "Пользователь запрашивает живое фото растения"),
  ("multiple_plants", "Пользователь спрашивает про заказ нескольких растений"),
  ("order_question", "Вопрос по текущему заказу"),
  ("call_request", "Пользователь просит позвонить"),
  ("reclamation", "Рекламация"),
  ("ask_human", "Пользователь просит связать с менеджером"),
  ("office_plant", "Пользователь интересуется растениями для офиса")]

/-- The fixed review-request broadcast template, `bot_agent.py` lines 168-176. -/
def reviewRequestText : String :=
  "Ваш заказ доставлен 🏡\nБлагодарим за покупку в TropicHouse! 🌿\n\nВаш выбор — лучшая награда для нашей команды. Мы постоянно совершенствуем сервис и хотим, чтобы вам было приятно возвращаться🌴\n\nПожалуйста, оцените наш сервис по 5-балльной шкале:\n5 — 😍 всё отлично\n3 — 😐 есть, что улучшить\n1 — 😞 остались недовольны"

/-- `classify_intent(ctx, text)`, `bot_agent.py` lines 164-230.  Line 179
returns `"review_ignore"` when `text.strip()` equals the template.  The very
next statement, line 184, is `last_message = context.get_last_message()`:
`context` is an unbound name there (the parameter is called `ctx`, and
`ChatContext` has no `get_last_message` method in any case), so every call
with non-template text raises `NameError` before the LLM request and the
whitelist filter of lines 222-230 can run. -/
def classifyIntent (_ctx : ChatContext) (text : String) : Except PyErr String :=
  if pyStrip text = pyStrip reviewRequestText then Except.ok "review_ignore"
  else Except.error (PyErr.nameError "context")

/-- The whitelist filter applied to the raw LLM answer, `bot_agent.py` lines
226-230: `category = response...strip().lower()`; anything that is not a key
of `CATEGORY_REPLIES` becomes `"none"`.  (In the source as written these
lines are dead code — see `classifyIntent` — but they are exactly the code
the claim describes.) -/
def llmCategoryFilter (raw : String) : String :=
  let category := pyLower (pyStrip raw)
  if category ∈ CATEGORY_KEYS then category else "none"

/-- C10: every value `classify_intent` actually returns is in the closed set
of the seven category keys, `"none"`, or the ignore signal; the whitelist
filter over the raw LLM answer maps everything outside the table to
`"none"`; and since `"pot_request"` and `"delivery"` are not keys, neither
can ever be produced, so the downstream `pot_request` branch is unreachable
via `classify_intent`. -/
theorem classify_intent_closed_range :
    (∀ (ctx : ChatContext) (text v : String),
        classifyIntent ctx text = Except.ok v →
          v = "review_ignore" ∨ v ∈ CATEGORY_KEYS ∨ v = "none")
    ∧ (∀ raw : String, llmCategoryFilter raw ∈ CATEGORY_KEYS ∨ llmCategoryFilter raw = "none")
    ∧ (∀ raw : String, llmCategoryFilter raw ≠ "pot_request" ∧ llmCategoryFilter raw ≠ "delivery")
    ∧ ("pot_request" ∉ CATEGORY_KEYS ∧ "delivery" ∉ CATEGORY_KEYS) := by
  refine ⟨?_, ?_, ?_, by decide⟩
  · intro ctx text v h
    unfold classifyIntent at h
    by_cases ht : pyStrip text = pyStrip reviewRequestText
    · rw [if_pos ht] at h
      exact Or.inl (Except.ok.inj h).symm
    · rw [if_neg ht] at h
      exact absurd h (by simp)
  · intro raw
    unfold llmCategoryFilter
    by_cases hc : pyLower (pyStrip raw) ∈ CATEGORY_KEYS
    · rw [if_pos hc]; exact Or.inl hc
    · rw [if_neg hc]; exact Or.inr rfl
  · intro raw
    unfold llmCategoryFilter
    by_cases hc : pyLower (pyStrip raw) ∈ CATEGORY_KEYS
    · rw [if_pos hc]
      refine ⟨fun heq => ?_, fun heq => ?_⟩ <;> rw [heq] at hc <;> revert hc <;> decide
    · rw [if_neg hc]; exact ⟨by decide, by decide⟩

/-- C10 witness: the range theorem applied to the one input on which
`classify_intent` returns without raising (the exact review template). -/
theorem classify_intent_closed_range_witness :
    "review_ignore" = "review_ignore" ∨ "review_ignore" ∈ CATEGORY_KEYS
      ∨ "review_ignore" = "none" :=
  classify_intent_closed_range.1 (freshContext "w10" 0) reviewRequestText "review_ignore"
    (by unfold classifyIntent; rw [if_pos rfl])

/-! ### Pot-size extraction and pot links (`bot_agent.py`, claim C8) -/

/-- ASCII decimal digit (the `\d` of the modelled patterns). -/
def isPyDigit (c : Char) : Bool := '0' ≤ c && c ≤ '9'

/-- Numeric value of a digit run (`int(...)` on the captured group). -/
def digitsVal (ds : List Char) : Nat :=
  ds.foldl (fun n c => 10 * n + (c.toNat - '0'.toNat)) 0

/-- Whether optional whitespace followed by the literal `см` starts here
(the `\s*см` tail of the first pattern). -/
def cmFollows (l : List Char) : Bool :=
  match l.dropWhile isPyWhite with
  | 'с' :: 'м' :: _ => true
  | _ => false

/-- `re.search` of `(\d+)\s*см`, advancing the candidate start one character
at a time exactly as `re.search` does: a match at a position needs a digit
there; the greedy group is the whole digit run from that position
(backtracking to a shorter group cannot help, since the following character
would be a digit, which is neither whitespace nor `с`), and the run must be
followed by optional whitespace and `см`. -/
def searchNumThenCm : List Char → Option Nat
  | [] => none
  | c :: rest =>
    if isPyDigit c ∧ cmFollows (rest.dropWhile isPyDigit) then
      some (digitsVal (c :: rest.takeWhile isPyDigit))
    else searchNumThenCm rest

/-- `re.search` of `d(\d+)`: the first `d` immediately followed by a digit;
the group is the maximal digit run after it. -/
def searchDNum : List Char → Option Nat
  | [] => none
  | 'd' :: c :: rest =>
    if isPyDigit c then some (digitsVal (c :: rest.takeWhile isPyDigit))
    else searchDNum (c :: rest)
  | _ :: rest => searchDNum rest

/-- `re.search` of `<word>\s*(\d+)`: the first occurrence of the literal word
followed by optional whitespace and at least one digit; the group is the
maximal digit run. -/
def searchWordNum (w : List Char) : List Char → Option Nat
  | [] => none
  | l@(_ :: rest) =>
    if l.take w.length = w then
      match ((l.drop w.length).dropWhile isPyWhite).takeWhile isPyDigit with
      | [] => searchWordNum w rest
      | ds => some (digitsVal ds)
    else searchWordNum w rest

/-- The per-pattern acceptance test of `extract_pot_size` (`bot_agent.py`
lines 504-510): a matched number is kept only when `10 <= size <= 70`,
otherwise the *next* pattern is tried. -/
def sizeInRange (r : Option Nat) : Option Nat :=
  match r with
  | some n => if 10 ≤ n ∧ n ≤ 70 then some n else none
  | none => none

/-- `extract_pot_size`, `bot_agent.py` lines 494-512: the four patterns over
`text.lower()`, tried in source order. -/
def extractPotSize (text : String) : Option Nat :=
  match sizeInRange (searchNumThenCm (pyLower text).data) with
  | some n => some n
  | none =>
    match sizeInRange (searchDNum (pyLower text).data) with
    | some n => some n
    | none =>
      match sizeInRange (searchWordNum "диаметр".data (pyLower text).data) with
      | some n => some n
      | none => sizeInRange (searchWordNum "размер".data (pyLower text).data)

/-- `PLANT_POT_SIZE_MAPPING`, `bot_agent.py` lines 39-86, in insertion order:
plant pot diameter to the suggested planter diameter range. -/
def PLANT_POT_SIZE_MAPPING : List (Nat × Nat × Nat) := [
  (9, 10, 12), (10, 10, 12), (11, 12, 15), (12, 12, 15), (13, 15, 18), (14, 15, 18),
  (15, 15, 18), (16, 19, 21), (17, 19, 21), (18, 19, 21), (19, 21, 25), (20, 21, 25),
  (21, 21, 25), (22, 21, 25), (23, 26, 29), (24, 28, 30), (25, 30, 35), (26, 30, 35),
  (27, 30, 35), (28, 30, 35), (29, 35, 40), (30, 35, 40), (31, 35, 40), (32, 35, 40),
  (33, 40, 45), (34, 40, 45), (35, 40, 45), (36, 43, 50), (37, 50, 59), (38, 50, 59),
  (39, 50, 59), (40, 50, 59), (41, 50, 59), (42, 50, 59), (43, 50, 59), (44, 50, 59),
  (45, 50, 59), (46, 60, 70), (47, 60, 70), (48, 60, 70), (49, 60, 70), (50, 60, 70),
  (51, 60, 70), (52, 60, 70), (53, 60, 70)]

/-- Distance between two naturals. -/
def natDist (a b : Nat) : Nat := max a b - min a b

/-- `min(keys, key=abs distance)` of `generate_pot_link`: the first key of the
mapping at minimal distance from `d` (Python's `min` keeps the earlier
element on ties). -/
def closestMappingKey (d : Nat) : Nat :=
  match PLANT_POT_SIZE_MAPPING.map Prod.fst with
  | [] => d
  | k :: ks => ks.foldl (fun best x => if natDist x d < natDist best d then x else best) k

/-- `generate_pot_link`, `bot_agent.py` lines 107-123. -/
def generatePotLink (d : Nat) : String :=
  let potRange :=
    match PLANT_POT_SIZE_MAPPING.lookup d with
    | some r => r
    | none => (PLANT_POT_SIZE_MAPPING.lookup (closestMappingKey d)).getD (0, 0)
  "https://tropichouse.ru/catalog/gorshki_i_kashpo/filter/diameter-from-"
    ++ toString potRange.1 ++ "-to-" ++ toString potRange.2 ++ "/apply/"

/-- The size-specific pot reply, `bot_agent.py` lines 602-604. -/
def potSizeReply (d : Nat) : String :=
  "🪴 Вот подходящие кашпо диаметром " ++ toString d ++ " см:\n" ++ generatePotLink d

/-- The generic pot-catalog reply, `bot_agent.py` line 607. -/
def genericPotReply : String :=
  "🪴 Вот наш каталог кашпо и горшков:\nhttps://tropichouse.ru/catalog/gorshki_i_kashpo/"

/-- Whatever `sizeInRange` accepts lies in `[10, 70]`. -/
theorem sizeInRange_bounds (r : Option Nat) (d : Nat) (h : sizeInRange r = some d) :
    10 ≤ d ∧ d ≤ 70 := by
  cases r with
  | none => simp [sizeInRange] at h
  | some n =>
    simp only [sizeInRange] at h
    by_cases hn : 10 ≤ n ∧ n ≤ 70
    · rw [if_pos hn] at h
      cases h
      exact hn
    · rw [if_neg hn] at h
      cases h

/-- An extracted pot size is always in the accepted range `[10, 70]`. -/
theorem extractPotSize_range (t : String) (d : Nat) (h : extractPotSize t = some d) :
    10 ≤ d ∧ d ≤ 70 := by
  unfold extractPotSize at h
  split at h
  next n heq => cases h; exact sizeInRange_bounds _ _ heq
  next =>
    split at h
    next n heq => cases h; exact sizeInRange_bounds _ _ heq
    next =>
      split at h
      next n heq => cases h; exact sizeInRange_bounds _ _ heq
      next => exact sizeInRange_bounds _ _ h

/-! ### Escalation environment and the per-category dispatch (`bot_agent.py`) -/

/-- Outward side effects a turn can request. -/
inductive Effect where
  | notifySeller (details : String) (isPreorder : Bool)
  | sendAccessories (chatId : String)
deriving DecidableEq

/-- The outcome of one `Runner.run` call of the LLM agent (an external
collaborator): the mutated session, the optional `final_output` text, and
any effects its tool calls produced. -/
structure AgentOutcome where
  ctx : ChatContext
  finalOutput : Option String
  effects : List Effect

/-- The observable outcome of the staff-availability HTTP query
(`telegrambot.api_request` / JSON payload shapes): the call can raise, the
request wrapper can catch an HTTP error, or a dict / list / other JSON
payload comes back. -/
inductive MgrQuery where
  | raised
  | apiError
  | dictUsers (users : Option (List String))
  | listUsers (l : List String)
  | otherPayload
deriving DecidableEq

/-- `telegrambot.get_online_managers`, lines 53-63: an `api_request` error
yields `[]`; a dict payload yields `data.get('users', []) or []`; a list
payload is returned as is; anything else yields `[]`.  A raised exception
propagates to the caller. -/
def getOnlineManagers : MgrQuery → Except Unit (List String)
  | MgrQuery.raised => Except.error ()
  | MgrQuery.apiError => Except.ok []
  | MgrQuery.dictUsers none => Except.ok []
  | MgrQuery.dictUsers (some l) => Except.ok l
  | MgrQuery.listUsers l => Except.ok l
  | MgrQuery.otherPayload => Except.ok []

/-- `config.MANAGER_B2B["id"]`. -/
def MANAGER_B2B_ID : Nat := 71

/-- `config.MANAGER_B2C["id"]`. -/
def MANAGER_B2C_ID : Nat := 2

/-- The category list of `is_working_hours_and_managers_available`,
`bot_agent.py` line 552. -/
def escalationCategories : List String :=
  ["office_plant", "multiple_plants", "live_photo", "ask_human", "reclamation",
   "order_question", "call_request"]

/-- The external collaborators of one turn: the wall-clock hour, the
staff-availability query per manager-group id, the quantity-extraction LLM
(`none` models any failure of the call or of `int(...)`), and the LLM agent
runner. -/
structure Env where
  hour : Nat
  managersApi : Nat → MgrQuery
  plantQuantityLLM : String → Option Int
  agentTurn : ChatContext → String → AgentOutcome

/-- `is_working_hours_and_managers_available`, `bot_agent.py` lines 538-564:
working hours are `hour < 19`; the staff query is only made for the listed
categories (B2B group for `office_plant`, B2C otherwise) and any exception
from it is caught and treated as "no staff online". -/
def isWorkingHoursAndManagersAvailable (env : Env) (category : String) : Bool × Bool :=
  let isWorkingHours := decide (env.hour < 19)
  let hasOnlineManagers :=
    if category ∈ escalationCategories then
      match getOnlineManagers (env.managersApi
          (if category = "office_plant" then MANAGER_B2B_ID else MANAGER_B2C_ID)) with
      | Except.error _ => false
      | Except.ok l => decide (0 < l.length)
    else false
  (isWorkingHours, hasOnlineManagers)

/-- `extract_plant_quantity`, `bot_agent.py` lines 514-536: `int` of the LLM
answer, defaulting to `1` on any failure. -/
def extractPlantQuantity (env : Env) (text : String) : Int :=
  (env.plantQuantityLLM text).getD 1

/-- What `run_unified_agent` hands back for one turn: the mutated session,
the returned reply (`none` models Python `None`), and the side effects. -/
structure TurnResult where
  ctx : ChatContext
  reply : Option String
  effects : List Effect

/-- `DETAILS_PREFIX[category]`, a dict subscript that raises `KeyError` for a
missing key. -/
def headerFor (category : String) : Except PyErr String :=
  match DETAILS_HEADERS.lookup category with
  | some h => Except.ok h
  | none => Except.error (PyErr.keyError category)

/-- `CATEGORY_REPLIES[category]`, a dict subscript that raises `KeyError` for
a missing key. -/
def categoryReplyFor (category : String) : Except PyErr String :=
  match CATEGORY_REPLIES.lookup category with
  | some r => Except.ok r
  | none => Except.error (PyErr.keyError category)

/-- The fixed after-hours reply, `bot_agent.py` line 627. -/
def afterHoursMessage : String := "Запрос принят, свяжемся с Вами в рабочее время ⏰"

/-- `run_unified_agent` from the point where the category has been computed
(`bot_agent.py` lines 591-667): the `office_plant` quantity downgrade, the
`pot_request` link reply, the silent `order_question`/`call_request`
escalation, the business-hours gate with canned deflection replies, and the
default agent turn with its `UPSELL` post-check. -/
def dispatchCategory (env : Env) (ctx : ChatContext) (userMessage : String)
    (category0 : String) : Except PyErr TurnResult :=
  let category :=
    if category0 = "office_plant" then
      (if extractPlantQuantity env userMessage ≤ 1 then "none" else category0)
    else category0
  if category = "pot_request" then
    let response :=
      match extractPotSize userMessage with
      | some d => potSizeReply d
      | none => genericPotReply
    Except.ok { ctx := addMessage ctx "assistant" response, reply := some response, effects := [] }
  else if category ≠ "none" then
    if category = "order_question" ∨ category = "call_request" then
      match headerFor category with
      | Except.error e => Except.error e
      | Except.ok hdr =>
        Except.ok { ctx := changeState { ctx with subject := some hdr } DialogState.MANAGER_CALLED,
                    reply := some "",
                    effects := [Effect.notifySeller (hdr ++ ": " ++ userMessage) false] }
    else
      let gate := isWorkingHoursAndManagersAvailable env category
      if gate.1 = false ∧ gate.2 = false then
        match headerFor category with
        | Except.error e => Except.error e
        | Except.ok hdr =>
          Except.ok { ctx := { addMessage ctx "assistant" afterHoursMessage with subject := some hdr },
                      reply := some afterHoursMessage,
                      effects := [Effect.notifySeller (hdr ++ ": " ++ userMessage) false] }
      else
        match headerFor category with
        | Except.error e => Except.error e
        | Except.ok hdr =>
          match categoryReplyFor category with
          | Except.error e => Except.error e
          | Except.ok reply =>
            Except.ok { ctx := changeState
                          (addMessage { ctx with subject := some hdr } "assistant" reply)
                          DialogState.MANAGER_CALLED,
                        reply := some reply,
                        effects := [Effect.notifySeller (hdr ++ ": " ++ userMessage) false] }
  else
    let out := env.agentTurn ctx userMessage
    if out.ctx.state = DialogState.UPSELL then
      Except.ok { ctx := changeState out.ctx DialogState.COMPLETED, reply := some "",
                  effects := out.effects ++ [Effect.sendAccessories out.ctx.chat_id] }
    else
      match out.finalOutput with
      | some t => Except.ok { ctx := addMessage out.ctx "assistant" t, reply := some t,
                              effects := out.effects }
      | none => Except.ok { ctx := out.ctx, reply := none, effects := out.effects }

/-- `run_unified_agent` after its broken preamble (`bot_agent.py` lines
577-667): record the user message, suppress everything while a manager is
already called (unless the text is the `/start` reset), then classify and
dispatch. -/
def runUnifiedAgentBody (env : Env) (ctx : ChatContext) (userMessage : String) :
    Except PyErr TurnResult :=
  let ctx1 := addMessage ctx "user" userMessage
  if ctx1.state = DialogState.MANAGER_CALLED ∧ ¬ pyLower (pyStrip userMessage) = "/start" then
    Except.ok { ctx := ctx1, reply := some "", effects := [] }
  else
    match classifyIntent ctx1 userMessage with
    | Except.error e => Except.error e
    | Except.ok category => dispatchCategory env ctx1 userMessage category

/-- `run_unified_agent`, `bot_agent.py` lines 566-667.  Its first executable
statement (line 571) is `intent = await classify_intent(text=text,
context=context)`: the name `text` is unbound in the function (its
parameters are `context`, `user_message`, `openai_client`), so evaluating
the keyword arguments raises `NameError: name 'text' is not defined` on
*every* call, before the leftover-snippet lines 573-575, the
`MANAGER_CALLED` guard of lines 583-586 and the rest of the body (modelled
separately as `runUnifiedAgentBody`) can run.  Even if line 571 resolved,
`classify_intent` accepts no `context` keyword — the call is a `TypeError`
as well. -/
def runUnifiedAgent (_env : Env) (_ctx : ChatContext) (_userMessage : String) :
    Except PyErr TurnResult :=
  Except.error (PyErr.nameError "text")

/-- The effects of a turn outcome (`[]` when the turn raised before
producing any). -/
def effectsOf : Except PyErr TurnResult → List Effect
  | Except.ok r => r.effects
  | Except.error _ => []

/-- The reply of a turn outcome. -/
def replyOf : Except PyErr TurnResult → Option String
  | Except.ok r => r.reply
  | Except.error _ => none

/-- The session state after a turn outcome. -/
def stateOf : Except PyErr TurnResult → Option DialogState
  | Except.ok r => some r.ctx.state
  | Except.error _ => none

/-- The replacement text `main.send_message` uses when it is handed `None`,
`main.py` line 391. -/
def sendTechErrorText : String :=
  "Извините, произошла техническая ошибка. Пожалуйста, повторите запрос или напишите /start для перезапуска диалога."

/-- `main.send_message`, lines 384-432: `None` is first replaced by the fixed
technical-error text; then an empty or whitespace-only message is suppressed
(`return` before any HTTP call); otherwise exactly one message is posted to
the chat. -/
def sendMessageAction (chatId : String) (message : Option String) : Option (String × String) :=
  let m := message.getD sendTechErrorText
  if pyStrip m = "" then none else some (chatId, m)

/-! ### Silent escalation (claim C5) and pot requests (claim C8) -/

/-- C5: when the classification is `order_question` or `call_request`, the
turn notifies a human once with the category's header, moves the session to
`MANAGER_CALLED`, and returns the empty string — which is falsy for the
caller's `if bot_reply:` guard and which `send_message` itself suppresses,
so nothing is sent to the user. -/
theorem silent_escalation_categories (env : Env) (ctx : ChatContext) (msg category : String)
    (h : category = "order_question" ∨ category = "call_request") :
    replyOf (dispatchCategory env ctx msg category) = some ""
    ∧ effectsOf (dispatchCategory env ctx msg category)
        = [Effect.notifySeller (((DETAILS_HEADERS.lookup category).getD "") ++ ": " ++ msg) false]
    ∧ stateOf (dispatchCategory env ctx msg category) = some DialogState.MANAGER_CALLED
    ∧ pyTruthy (some "") = false
    ∧ sendMessageAction ctx.chat_id (some "") = none := by
  rcases h with rfl | rfl <;>
    exact ⟨by simp [dispatchCategory, headerFor, DETAILS_HEADERS, List.lookup, replyOf],
           by simp [dispatchCategory, headerFor, DETAILS_HEADERS, List.lookup, effectsOf],
           by simp [dispatchCategory, headerFor, DETAILS_HEADERS, List.lookup, stateOf,
                    changeState_state],
           by decide, rfl⟩

/-- A fixed environment for witnesses: noon, staff query failing at the HTTP
layer, quantity extractor failing (hence defaulting to 1), and an agent that
does nothing. -/
def envW : Env :=
  { hour := 12, managersApi := fun _ => MgrQuery.apiError,
    plantQuantityLLM := fun _ => none,
    agentTurn := fun c _ => { ctx := c, finalOutput := none, effects := [] } }

/-- C5 witness: a concrete `call_request` turn. -/
theorem silent_escalation_witness :
    replyOf (dispatchCategory envW (freshContext "w5" 0) "Перезвоните мне" "call_request")
      = some ""
    ∧ stateOf (dispatchCategory envW (freshContext "w5" 0) "Перезвоните мне" "call_request")
      = some DialogState.MANAGER_CALLED
    ∧ sendMessageAction (freshContext "w5" 0).chat_id (some "") = none := by
  have h := silent_escalation_categories envW (freshContext "w5" 0) "Перезвоните мне"
    "call_request" (Or.inr rfl)
  exact ⟨h.1, h.2.2.1, h.2.2.2.2⟩

/-- C8: a turn dispatched as `pot_request` notifies nobody, leaves the
session state unchanged, and replies with the size-specific catalog link
when the deterministic pattern extraction finds a diameter and with the
generic pot-catalog link otherwise; every extracted diameter lies in the
accepted range 10-70. -/
theorem pot_request_never_escalates (env : Env) (ctx : ChatContext) (msg : String) :
    effectsOf (dispatchCategory env ctx msg "pot_request") = []
    ∧ stateOf (dispatchCategory env ctx msg "pot_request") = some ctx.state
    ∧ replyOf (dispatchCategory env ctx msg "pot_request")
        = some (match extractPotSize msg with
                | some d => potSizeReply d
                | none => genericPotReply)
    ∧ (∀ (t : String) (d : Nat), extractPotSize t = some d → 10 ≤ d ∧ d ≤ 70) := by
  refine ⟨?_, ?_, ?_, fun t d hd => extractPotSize_range t d hd⟩ <;>
    simp [dispatchCategory, effectsOf, stateOf, replyOf, addMessage]

/-- C8 witness: a concrete pot request carrying an explicit 25 cm size. -/
theorem pot_request_witness :
    replyOf (dispatchCategory envW (freshContext "w8" 0) "нужно кашпо 25 см" "pot_request")
      = some (potSizeReply 25)
    ∧ 10 ≤ 25 ∧ 25 ≤ 70 := by
  have h := pot_request_never_escalates envW (freshContext "w8" 0) "нужно кашпо 25 см"
  have he : extractPotSize "нужно кашпо 25 см" = some 25 := by decide
  refine ⟨?_, h.2.2.2 _ 25 he⟩
  rw [h.2.2.1, he]

/-! ### The business-hours gate (claim C6) -/

/-- Categories that reach the hours gate undowngraded: the four plain gate
categories, or `office_plant` when the extracted quantity exceeds one. -/
def reachesGate (env : Env) (msg category : String) : Prop :=
  category = "live_photo" ∨ category = "multiple_plants" ∨ category = "reclamation"
    ∨ category = "ask_human"
    ∨ (category = "office_plant" ∧ ¬ extractPlantQuantity env msg ≤ 1)

/-- Outside working hours with no staff online, a gate category sends the
fixed after-hours reply, still notifies a human, and leaves the state as it
was. -/
theorem gateAfterHours_aux (env : Env) (ctx : ChatContext) (msg category : String)
    (hc : reachesGate env msg category)
    (h1 : (isWorkingHoursAndManagersAvailable env category).1 = false)
    (h2 : (isWorkingHoursAndManagersAvailable env category).2 = false) :
    replyOf (dispatchCategory env ctx msg category) = some afterHoursMessage
    ∧ effectsOf (dispatchCategory env ctx msg category)
        = [Effect.notifySeller (((DETAILS_HEADERS.lookup category).getD "") ++ ": " ++ msg) false]
    ∧ stateOf (dispatchCategory env ctx msg category) = some ctx.state := by
  rcases hc with rfl | rfl | rfl | rfl | ⟨rfl, hq1⟩ <;>
    refine ⟨?_, ?_, ?_⟩ <;>
    simp [dispatchCategory, headerFor, DETAILS_HEADERS, List.lookup, replyOf, effectsOf,
      stateOf, addMessage, h1, h2, *]

/-- Within working hours, or with staff online, a gate category sends its
canned deflection reply, notifies a human, and moves to `MANAGER_CALLED`. -/
theorem gateOpenHours_aux (env : Env) (ctx : ChatContext) (msg category : String)
    (hc : reachesGate env msg category)
    (h12 : (isWorkingHoursAndManagersAvailable env category).1 = true
        ∨ (isWorkingHoursAndManagersAvailable env category).2 = true) :
    replyOf (dispatchCategory env ctx msg category)
        = some ((CATEGORY_REPLIES.lookup category).getD "")
    ∧ effectsOf (dispatchCategory env ctx msg category)
        = [Effect.notifySeller (((DETAILS_HEADERS.lookup category).getD "") ++ ": " ++ msg) false]
    ∧ stateOf (dispatchCategory env ctx msg category) = some DialogState.MANAGER_CALLED := by
  rcases hc with rfl | rfl | rfl | rfl | ⟨rfl, hq1⟩ <;>
    rcases h12 with h1 | h1 <;>
    refine ⟨?_, ?_, ?_⟩ <;>
    simp [dispatchCategory, headerFor, categoryReplyFor, DETAILS_HEADERS, CATEGORY_REPLIES,
      List.lookup, replyOf, effectsOf, stateOf, changeState_state, h1, *]

/-- A staff-availability query that raises, or whose HTTP layer fails, is
degraded to "no staff online" rather than propagating. -/
theorem gateQueryDegrade_aux (env : Env) (msg category : String)
    (hc : reachesGate env msg category)
    (happ : env.managersApi (if category = "office_plant" then MANAGER_B2B_ID else MANAGER_B2C_ID)
          = MgrQuery.raised
        ∨ env.managersApi (if category = "office_plant" then MANAGER_B2B_ID else MANAGER_B2C_ID)
          = MgrQuery.apiError) :
    (isWorkingHoursAndManagersAvailable env category).2 = false := by
  rcases hc with rfl | rfl | rfl | rfl | ⟨rfl, hq1⟩ <;>
    rcases happ with ha | ha <;>
    (first
      | rw [if_neg (by decide)] at ha
      | rw [if_pos rfl] at ha) <;>
    simp [isWorkingHoursAndManagersAvailable, getOnlineManagers, escalationCategories, ha]

/-- C6 (amended): for every message whose classification is `live_photo`,
`multiple_plants`, `reclamation` or `ask_human` — and for `office_plant`
only when the quantity extractor reports more than one plant, since a
single-plant `office_plant` message is downgraded to the normal automated
turn — being outside business hours means the hour is at or past the 19:00
cutoff, and then, with no staff online, exactly the fixed after-hours reply
is produced, a human is still notified, and the state does not change (in
particular it does not become `MANAGER_CALLED`); within hours or with staff
online the category's canned deflection reply is produced, a human is
notified, and the state becomes `MANAGER_CALLED`; a failed staff query is
treated as "no staff online" and never propagates. -/
theorem hours_gate_escalation (env : Env) (ctx : ChatContext) (msg category : String)
    (h : category ∈ (["live_photo", "multiple_plants", "reclamation", "ask_human"] : List String)
        ∨ (category = "office_plant" ∧ 2 ≤ extractPlantQuantity env msg)) :
    ((isWorkingHoursAndManagersAvailable env category).1 = false ↔ 19 ≤ env.hour)
    ∧ ((isWorkingHoursAndManagersAvailable env category).1 = false →
       (isWorkingHoursAndManagersAvailable env category).2 = false →
        replyOf (dispatchCategory env ctx msg category) = some afterHoursMessage
        ∧ effectsOf (dispatchCategory env ctx msg category)
            = [Effect.notifySeller (((DETAILS_HEADERS.lookup category).getD "") ++ ": " ++ msg)
                false]
        ∧ stateOf (dispatchCategory env ctx msg category) = some ctx.state)
    ∧ ((isWorkingHoursAndManagersAvailable env category).1 = true
        ∨ (isWorkingHoursAndManagersAvailable env category).2 = true →
        replyOf (dispatchCategory env ctx msg category)
            = some ((CATEGORY_REPLIES.lookup category).getD "")
        ∧ effectsOf (dispatchCategory env ctx msg category)
            = [Effect.notifySeller (((DETAILS_HEADERS.lookup category).getD "") ++ ": " ++ msg)
                false]
        ∧ stateOf (dispatchCategory env ctx msg category) = some DialogState.MANAGER_CALLED)
    ∧ ((env.managersApi (if category = "office_plant" then MANAGER_B2B_ID else MANAGER_B2C_ID)
          = MgrQuery.raised
        ∨ env.managersApi (if category = "office_plant" then MANAGER_B2B_ID else MANAGER_B2C_ID)
          = MgrQuery.apiError) →
        (isWorkingHoursAndManagersAvailable env category).2 = false) := by
  have hc : reachesGate env msg category := by
    rcases h with hm | ⟨rfl, hq⟩
    · simp only [List.mem_cons, List.mem_singleton, List.not_mem_nil, or_false] at hm
      unfold reachesGate; tauto
    · unfold reachesGate
      exact Or.inr (Or.inr (Or.inr (Or.inr ⟨rfl, by omega⟩)))
  refine ⟨?_, fun h1 h2 => gateAfterHours_aux env ctx msg category hc h1 h2,
    fun h12 => gateOpenHours_aux env ctx msg category hc h12,
    fun happ => gateQueryDegrade_aux env msg category hc happ⟩
  simp [isWorkingHoursAndManagersAvailable]

/-- An after-hours environment: 20:00, the staff query failing at the HTTP
layer, the quantity extractor failing (so defaulting to one plant), and an
agent that answers with a plain text. -/
def envAfterHours : Env :=
  { hour := 20, managersApi := fun _ => MgrQuery.apiError,
    plantQuantityLLM := fun _ => none,
    agentTurn := fun c _ => { ctx := c, finalOutput := some "Чем ещё могу помочь?", effects := [] } }

/-- C6 counterexample: the claim as frozen covers *every* escalating category
other than `order_question`/`call_request`, hence also `office_plant`; but a
single-plant `office_plant` message outside hours with no staff online is
downgraded to the plain agent turn — nobody is notified and the reply is the
agent's text, not the after-hours message. -/
theorem hours_gate_office_plant_cex :
    19 ≤ envAfterHours.hour
    ∧ (isWorkingHoursAndManagersAvailable envAfterHours "office_plant").2 = false
    ∧ "office_plant" ∈ escalationCategories
    ∧ effectsOf (dispatchCategory envAfterHours (freshContext "c6" 0)
        "Нужно растение в офис" "office_plant") = []
    ∧ replyOf (dispatchCategory envAfterHours (freshContext "c6" 0)
        "Нужно растение в офис" "office_plant") = some "Чем ещё могу помочь?"
    ∧ ¬ (some "Чем ещё могу помочь?" = some afterHoursMessage) := by
  exact ⟨by decide, by decide, by decide, rfl, rfl, by decide⟩

/-- C6 witness: a concrete `reclamation` turn at 20:00 with the staff query
failing — the after-hours reply, one notification, unchanged state. -/
theorem hours_gate_witness :
    replyOf (dispatchCategory envAfterHours (freshContext "w6" 0)
        "Привезли сломанное растение" "reclamation") = some afterHoursMessage
    ∧ effectsOf (dispatchCategory envAfterHours (freshContext "w6" 0)
        "Привезли сломанное растение" "reclamation")
      = [Effect.notifySeller "Рекламация: Привезли сломанное растение" false]
    ∧ stateOf (dispatchCategory envAfterHours (freshContext "w6" 0)
        "Привезли сломанное растение" "reclamation") = some DialogState.START := by
  have h := hours_gate_escalation envAfterHours (freshContext "w6" 0)
    "Привезли сломанное растение" "reclamation" (by simp)
  obtain ⟨hr, he, hs⟩ := h.2.1 (by decide) (by decide)
  refine ⟨hr, ?_, ?_⟩
  · rw [he]; rfl
  · rw [hs]; rfl

/-! ### Per-chat debounce (`main.py`, claim C9) -/

/-- The per-chat debounce state: the pending `(text, image_url)` list
(`user_messages[chat_id]`, entries appended at `main.py` lines 742/746) and
whether a timer task is live (`chat_id in user_timers`). -/
structure DebounceState where
  pending : List (Option String × Option String)
  timerLive : Bool
deriving DecidableEq

/-- `process_messages` handling one dequeued text event, `main.py` lines
735-755: append `(text, None)`; a timer is started only when none is live,
so afterwards one is live either way. -/
def enqueueText (s : DebounceState) (t : String) : DebounceState :=
  { pending := s.pending ++ [(some t, none)], timerLive := true }

/-- `process_messages` handling one dequeued image event: append
`(None, image_url)`. -/
def enqueueImage (s : DebounceState) (u : String) : DebounceState :=
  { pending := s.pending ++ [(none, some u)], timerLive := true }

/-- A dispatch performed when the debounce window fires: one
`handle_client_image` call, or the single combined `handle_client_message`
call. -/
inductive ChatTurn where
  | imageTurn (url : String)
  | textTurn (text : String)
deriving DecidableEq

/-- The splitting loop of `process_user_messages`, `main.py` lines 695-703:
one pass over the pending entries, collecting image URLs and texts in
arrival order (an entry with a truthy `image_url` is an image, else a
truthy `text` is a text, else it is skipped). -/
def splitPending (msgs : List (Option String × Option String)) : List String × List String :=
  msgs.foldl
    (fun acc m =>
      if pyTruthy m.2 then (acc.1, acc.2 ++ [m.2.getD ""])
      else if pyTruthy m.1 then (acc.1 ++ [m.1.getD ""], acc.2)
      else acc)
    ([], [])

/-- `process_user_messages` once its sleep ends, `main.py` lines 684-722:
read and clear the pending list, dispatch every image individually, then —
if any text is pending — exactly one combined turn with the newline-joined
text; the timer handle is deleted in the `finally:` block. -/
def fireDebounceWindow (s : DebounceState) : List ChatTurn × DebounceState :=
  let split := splitPending s.pending
  (split.2.map ChatTurn.imageTurn
     ++ (if split.1.isEmpty then [] else [ChatTurn.textTurn (pyJoin "\n" split.1)]),
   { pending := [], timerLive := false })

/-- The texts of a pending list, in arrival order (specification-shaped
recursion used to characterise `splitPending`). -/
def textsIn : List (Option String × Option String) → List String
  | [] => []
  | m :: r =>
    if pyTruthy m.2 then textsIn r
    else if pyTruthy m.1 then m.1.getD "" :: textsIn r
    else textsIn r

/-- The image URLs of a pending list, in arrival order. -/
def imagesIn : List (Option String × Option String) → List String
  | [] => []
  | m :: r => if pyTruthy m.2 then m.2.getD "" :: imagesIn r else imagesIn r

/-- The folding pass of `splitPending` computes exactly the in-order texts
and images. -/
theorem splitPending_spec (msgs : List (Option String × Option String)) :
    ∀ a b : List String,
      msgs.foldl
        (fun acc m =>
          if pyTruthy m.2 then (acc.1, acc.2 ++ [m.2.getD ""])
          else if pyTruthy m.1 then (acc.1 ++ [m.1.getD ""], acc.2)
          else acc)
        (a, b)
      = (a ++ textsIn msgs, b ++ imagesIn msgs) := by
  induction msgs with
  | nil => intro a b; simp [textsIn, imagesIn]
  | cons m r ih =>
    intro a b
    by_cases h2 : pyTruthy m.2 = true
    · simp [h2, textsIn, imagesIn, ih]
    · by_cases h1 : pyTruthy m.1 = true
      · simp [h1, h2, textsIn, imagesIn, ih]
      · simp [h1, h2, textsIn, imagesIn, ih]

/-- C9: firing the window dispatches every pending image individually, in
arrival order, *before* the text, then exactly one combined text turn —
present iff any text is pending — whose text is the newline-join of all
pending texts in arrival order; the pending list and the timer handle are
cleared.  In particular three rapid texts collapse into the single turn
`t1\nt2\nt3`. -/
theorem debounce_window_semantics :
    (∀ s : DebounceState,
      fireDebounceWindow s
        = ((imagesIn s.pending).map ChatTurn.imageTurn
             ++ (if textsIn s.pending = [] then []
                 else [ChatTurn.textTurn (pyJoin "\n" (textsIn s.pending))]),
           { pending := [], timerLive := false }))
    ∧ (∀ t1 t2 t3 : String, ¬ t1 = "" → ¬ t2 = "" → ¬ t3 = "" →
        fireDebounceWindow (enqueueText (enqueueText (enqueueText ⟨[], false⟩ t1) t2) t3)
          = ([ChatTurn.textTurn (t1 ++ "\n" ++ (t2 ++ "\n" ++ t3))],
             { pending := [], timerLive := false })) := by
  have hsplit : ∀ msgs, splitPending msgs = (textsIn msgs, imagesIn msgs) := by
    intro msgs
    have h := splitPending_spec msgs [] []
    simpa [splitPending] using h
  constructor
  · intro s
    unfold fireDebounceWindow
    rw [hsplit]
    simp [List.isEmpty_iff]
  · intro t1 t2 t3 h1 h2 h3
    unfold fireDebounceWindow enqueueText
    rw [hsplit]
    simp [textsIn, imagesIn, pyTruthy, h1, h2, h3, pyJoin]

/-- C9 witness: three concrete rapid texts become one newline-joined turn,
with the pending list and timer cleared. -/
theorem debounce_window_witness :
    fireDebounceWindow
        (enqueueText (enqueueText (enqueueText ⟨[], false⟩ "Здравствуйте") "Хочу фикус")
          "до 1 метра")
      = ([ChatTurn.textTurn ("Здравствуйте" ++ "\n" ++ ("Хочу фикус" ++ "\n" ++ "до 1 метра"))],
         { pending := [], timerLive := false }) :=
  debounce_window_semantics.2 "Здравствуйте" "Хочу фикус" "до 1 метра"
    (by decide) (by decide) (by decide)

/-! ### The inbound handler (`main.py`, claims C1 and C7) -/

/-- The empty-message apology, `main.py` line 151. -/
def emptyMessageReply : String :=
  "Извините, я получил пустое сообщение. Пожалуйста, повторите ваш запрос."

/-- The catch-all apology of `handle_client_message`, `main.py` line 166. -/
def handleErrorReply : String :=
  "Извините, произошла ошибка при обработке вашего запроса. Пожалуйста, повторите или введите /start для перезапуска диалога."

/-- `handle_client_message(chat_id, message_text)`, `main.py` lines 122-166,
viewed per chat: `existing` is the stored session (`none` for an unseen chat
id), `now` the current time.  Returns the stored session afterwards and the
list of texts sent to this chat.  The `/start` command replaces the session
before anything else (lines 130-134); the fetch-or-create with expiry check
follows (lines 137-144); an empty text is answered with a fixed apology
(lines 149-152); otherwise `run_unified_agent` is awaited — a truthy reply
is forwarded to `send_message` (lines 159-162) and an exception lands in the
`except:` branch which sends the error apology (lines 164-166). -/
def handleClientMessage (env : Env) (now : Nat) (existing : Option ChatContext)
    (chatId messageText : String) : Option ChatContext × List String :=
  let store0 :=
    if pyLower (pyStrip messageText) = "/start" then some (freshContext chatId now)
    else existing
  let ctx :=
    match store0 with
    | none => freshContext chatId now
    | some c => if isExpired c now then freshContext chatId now else c
  if messageText = "" then
    (some ctx,
     match sendMessageAction chatId (some emptyMessageReply) with
     | some a => [a.2]
     | none => [])
  else
    match runUnifiedAgent env ctx messageText with
    | Except.ok r =>
      (some r.ctx,
       if pyTruthy r.reply then
         match sendMessageAction chatId r.reply with
         | some a => [a.2]
         | none => []
       else [])
    | Except.error _ =>
      (some ctx,
       match sendMessageAction chatId (some handleErrorReply) with
       | some a => [a.2]
       | none => [])

/-- The C1 failing input: a session already in `MANAGER_CALLED`. -/
def ctxC1 : ChatContext := { freshContext "1001" 0 with state := DialogState.MANAGER_CALLED }

/-- C1 (code bug): with the session in `MANAGER_CALLED`, the ordinary inbound
message `"привет"` — not the reset command — makes `run_unified_agent` raise
`NameError` at its very first statement (`bot_agent.py` line 571 evaluates
the unbound name `text`), so `handle_client_message` catches the exception
and sends the error apology: exactly one `send_message` call where the
claim requires zero.  The state is indeed left unchanged — and the final
conjunct shows the `MANAGER_CALLED` guard of lines 583-586, modelled in
`runUnifiedAgentBody`, would suppress the turn exactly as the claim states
if the preamble did not raise. -/
theorem manager_called_turn_sends_apology :
    runUnifiedAgent envW ctxC1 "привет" = Except.error (PyErr.nameError "text")
    ∧ handleClientMessage envW 0 (some ctxC1) "1001" "привет" = (some ctxC1, [handleErrorReply])
    ∧ ¬ ([handleErrorReply] = ([] : List String))
    ∧ runUnifiedAgentBody envW ctxC1 "привет"
        = Except.ok { ctx := addMessage ctxC1 "user" "привет", reply := some "", effects := [] } := by
  refine ⟨rfl, by decide, by decide, rfl⟩

/-- C7 (code bug): a message that is exactly the fixed review-request
template would short-circuit `classify_intent` to the ignore signal (first
conjunct) — but the turn never gets there: `run_unified_agent` raises
`NameError` on line 571 before any routing, and `handle_client_message`
sends the error apology, so the turn produces one reply instead of zero.
(The session state is left unchanged, as the claim says.) -/
theorem review_template_turn_sends_apology :
    classifyIntent (freshContext "2002" 0) reviewRequestText = Except.ok "review_ignore"
    ∧ runUnifiedAgent envW (freshContext "2002" 0) reviewRequestText
        = Except.error (PyErr.nameError "text")
    ∧ handleClientMessage envW 0 none "2002" reviewRequestText
        = (some (freshContext "2002" 0), [handleErrorReply])
    ∧ ¬ ([handleErrorReply] = ([] : List String)) := by
  refine ⟨by unfold classifyIntent; rw [if_pos rfl], rfl, by decide, by decide⟩
